import Mathlib

set_option autoImplicit false

/-
Verification development for the authentication and session layer of the
Ninja Master Mobile API backend (src/backend/server.py).

Modelling conventions of the shallow embedding:
  - Time is a Nat counting seconds; `timedelta(days=7)` becomes
    `SEVEN_DAYS = 7 * 24 * 60 * 60`.
  - The MongoDB collections `users` and `sessions` are lists of records,
    kept in insertion order; `find_one` is `List.find?` on that order,
    `insert_one` appends, and `delete_one` removes the first match.
  - Randomness and clock reads (uuid4, secrets.token_urlsafe, now) are
    passed in as explicit parameters of the endpoint functions.
  - bcrypt via passlib is modelled algebraically: a stored hash value is
    either a well-formed bcrypt hash (recording the hashed password and a
    salt) or an unrecognized string.  `CryptContext.verify` succeeds with
    a Bool on a recognized hash and raises `UnknownHashError` on an
    unrecognized one, which the embedding renders as `Except`.
  - python-jose JWTs are modelled algebraically: a token is either a
    payload signed under a key, or a malformed string.  `jwt.decode`
    checks the key and rejects exactly when `exp < now` (the library
    raises `ExpiredSignatureError` when the exp claim is strictly in the
    past); `verify_token` catches every `JWTError` and returns `none`.
  - Raising `HTTPException` is modelled by returning an error response
    value carrying the status code and detail string; `get_current_user`
    returns `none` for its 401 `credentials_exception`.
  - FastAPI validates the request body against the pydantic model before
    the handler runs: a `UserCreate` body violating the `Field`
    constraints is rejected with status 422 (the embedding uses the
    stand-in detail string "request validation failed" for the structured
    422 body).  `EmailStr` shape validation is upstream of everything the
    claims mention and is not modelled: endpoint inputs are the already
    parsed strings.
-/

namespace NinjaAuth

/-- Seven days in seconds: `ACCESS_TOKEN_EXPIRE_DAYS = 7` in server.py,
used both for JWT expiry and session expiry. -/
def SEVEN_DAYS : Nat := 7 * 24 * 60 * 60

/-- The process-wide JWT signing secret (`SECRET_KEY` in server.py). -/
abbrev SecretKey := String

/-- A stored password-hash string as passlib sees it: either a
well-formed bcrypt hash (idealized as recording the hashed password and
the salt that makes two hashes of the same password differ), or a string
passlib does not recognize as any configured scheme. -/
inductive HashValue where
  | bcrypt (pw : String) (salt : Nat)
  | unrecognized (raw : String)
deriving DecidableEq, Repr

/-- Errors passlib raises past `CryptContext.verify`:
`passlib.exc.UnknownHashError` (a ValueError) when the hash string could
not be identified as any configured scheme. -/
inductive PasslibError where
  | unknownHash
deriving DecidableEq, Repr

/-- Model of `passlib.context.CryptContext.verify`: on a recognized
bcrypt hash it returns whether the plaintext matches; on an unrecognized
hash value it raises `UnknownHashError`. -/
def pwd_context_verify (plain : String) (hash : HashValue) : Except PasslibError Bool :=
  match hash with
  | .bcrypt pw _ => .ok (plain == pw)
  | .unrecognized _ => .error .unknownHash

/-- Model of `CryptContext.hash`: always produces a well-formed bcrypt
hash of the plaintext under a fresh salt. -/
def pwd_context_hash (password : String) (salt : Nat) : HashValue :=
  .bcrypt password salt

/-- server.py `verify_password`: a bare delegation to
`pwd_context.verify(plain_password, hashed_password)` with no
try/except of its own. -/
def verify_password (plain_password : String) (hashed_password : HashValue) :
    Except PasslibError Bool :=
  pwd_context_verify plain_password hashed_password

/-- server.py `get_password_hash`: delegation to `pwd_context.hash`,
with the salt made explicit. -/
def get_password_hash (password : String) (salt : Nat) : HashValue :=
  pwd_context_hash password salt

/-- server.py `validate_password`: 8 to 64 characters inclusive. -/
def validate_password (password : String) : Bool :=
  if password.length < 8 ∨ password.length > 64 then false else true

/-- The decoded JWT payload the code uses: the `sub` claim (optional, read
with `payload.get("sub")`) and the `exp` claim added by
`create_access_token`. -/
structure JwtPayload where
  sub : Option String
  exp : Nat
deriving DecidableEq, Repr

/-- A JWT as python-jose produces or receives it: a payload signed under
a key, or a string that does not parse as a JWT at all. -/
inductive Jwt where
  | signed (payload : JwtPayload) (key : SecretKey)
  | malformed (raw : String)
deriving DecidableEq, Repr

/-- server.py `create_access_token`: copies the claim data (always
`data = set sub to a user id` at every call site, modelled as the `sub`
field), adds `exp = now + expires_delta` defaulting the delta to 7 days,
and signs with the process secret. -/
def create_access_token (key : SecretKey) (sub : Option String) (now : Nat)
    (expires_delta : Option Nat) : Jwt :=
  match expires_delta with
  | some d => .signed { sub := sub, exp := now + d } key
  | none => .signed { sub := sub, exp := now + SEVEN_DAYS } key

/-- server.py `verify_token`: `jwt.decode` under the process secret,
returning the payload, with every `JWTError` (bad signature, expired,
malformed) caught and turned into `None`.  python-jose rejects as expired
exactly when `exp < now`, so a token is accepted while `now ≤ exp`. -/
def verify_token (key : SecretKey) (token : Jwt) (now : Nat) : Option JwtPayload :=
  match token with
  | .signed payload k => if k == key && now ≤ payload.exp then some payload else none
  | .malformed _ => none

/-- A document of the `users` collection.  `create_user` always sets
`created_at` and `is_active`; `password_hash` is present only for
email-provider accounts (the OAuth creation path omits it), and
`oauth_id` and `picture` are present only for OAuth accounts. -/
structure UserDoc where
  id : String
  email : String
  name : String
  password_hash : Option HashValue
  provider : String
  oauth_id : Option String
  picture : Option String
  created_at : Nat
  is_active : Bool
deriving DecidableEq, Repr

/-- A document of the `sessions` collection, as written by
`create_session`. -/
structure SessionDoc where
  user_id : String
  session_token : String
  created_at : Nat
  expires_at : Nat
deriving DecidableEq, Repr

/-- The document database: the two logical collections the auth core
touches, in insertion order. -/
structure DB where
  users : List UserDoc
  sessions : List SessionDoc
deriving DecidableEq, Repr

/-- server.py `get_user_by_email`: `db.users.find_one` on email. -/
def get_user_by_email (db : DB) (email : String) : Option UserDoc :=
  db.users.find? (fun u => u.email == email)

/-- server.py `get_user_by_id`: `db.users.find_one` on id. -/
def get_user_by_id (db : DB) (user_id : String) : Option UserDoc :=
  db.users.find? (fun u => u.id == user_id)

/-- The fields a caller of `create_user` supplies (the `user_dict` built
by register or by the OAuth handler, before `create_user` stamps
`created_at` and `is_active`). -/
structure NewUserData where
  id : String
  email : String
  name : String
  password_hash : Option HashValue
  provider : String
  oauth_id : Option String
  picture : Option String
deriving DecidableEq, Repr

/-- server.py `create_user`: stamps `created_at = now` and
`is_active = True`, inserts the document, and returns it. -/
def create_user (db : DB) (now : Nat) (d : NewUserData) : UserDoc × DB :=
  let u : UserDoc :=
    { id := d.id, email := d.email, name := d.name,
      password_hash := d.password_hash, provider := d.provider,
      oauth_id := d.oauth_id, picture := d.picture,
      created_at := now, is_active := true }
  (u, { db with users := db.users ++ [u] })

/-- server.py `create_session`: inserts a session row with
`expires_at = now + 7 days` and returns it. -/
def create_session (db : DB) (user_id : String) (session_token : String)
    (now : Nat) : SessionDoc × DB :=
  let s : SessionDoc :=
    { user_id := user_id, session_token := session_token,
      created_at := now, expires_at := now + SEVEN_DAYS }
  (s, { db with sessions := db.sessions ++ [s] })

/-- server.py `get_session`: `find_one` on the token with the filter
`expires_at strictly greater than now`; expired rows are filtered out but
never deleted by lookup. -/
def get_session (db : DB) (session_token : String) (now : Nat) : Option SessionDoc :=
  db.sessions.find? (fun s => s.session_token == session_token && decide (now < s.expires_at))

/-- Mongo `delete_one` on the sessions collection: removes the first
document matching the token, or nothing when none matches. -/
def delete_one_session (l : List SessionDoc) (session_token : String) : List SessionDoc :=
  match l with
  | [] => []
  | s :: rest =>
    if s.session_token == session_token then rest
    else s :: delete_one_session rest session_token

/-- server.py `delete_session`: `db.sessions.delete_one` on the token. -/
def delete_session (db : DB) (session_token : String) : DB :=
  { db with sessions := delete_one_session db.sessions session_token }

/-- The JWT fallback block of server.py `get_current_user` (the second
early-return if): validate the bearer token, read `payload.get("sub")`,
look the user up by id; any miss falls out to the 401. -/
def bearer_resolves (db : DB) (now : Nat) (key : SecretKey) (token : Option Jwt) :
    Option UserDoc :=
  match token with
  | some t =>
    match verify_token key t now with
    | some payload =>
      match payload.sub with
      | some user_id => get_user_by_id db user_id
      | none => none
    | none => none
  | none => none

/-- server.py `get_current_user`, the identity resolver.  `none` stands
for raising the 401 `credentials_exception`.  The cookie block returns
its user on full success and otherwise falls through to the bearer
block (`bearer_resolves`), exactly as the sequence of early-return ifs
does in the source; `is_active` is never consulted. -/
def get_current_user (db : DB) (now : Nat) (key : SecretKey)
    (token : Option Jwt) (session_token : Option String) : Option UserDoc :=
  match session_token with
  | some st =>
    match get_session db st now with
    | some session =>
      match get_user_by_id db session.user_id with
      | some u => some u
      | none => bearer_resolves db now key token
    | none => bearer_resolves db now key token
  | none => bearer_resolves db now key token

/-- The payload the external OAuth proxy returns on HTTP 200 for a
recognized session id (`SessionData` in server.py). -/
structure SessionData where
  id : String
  email : String
  name : String
  picture : Option String
  session_token : String
deriving DecidableEq, Repr

/-- The public user projection (`User` pydantic model) returned to
clients; `password_hash` is never part of it.  Handlers read
`is_active` and `provider` with dict `.get` defaults, which the
embedding renders directly off the total record fields. -/
structure PublicUser where
  id : String
  email : String
  name : String
  created_at : Nat
  is_active : Bool
  provider : String
deriving DecidableEq, Repr

/-- Build the public `User` projection from a stored document, as every
success handler does. -/
def public_user (u : UserDoc) : PublicUser :=
  { id := u.id, email := u.email, name := u.name,
    created_at := u.created_at, is_active := u.is_active,
    provider := u.provider }

/-- An HTTP endpoint outcome: a success with status and typed body, or
an `HTTPException` with status and detail. -/
inductive ApiResponse (α : Type) where
  | success (status : Nat) (body : α)
  | error (status : Nat) (detail : String)
deriving DecidableEq, Repr

/-- The body of the `Token` response model: the bearer token, the session
cookie value set on the response, and the public user projection. -/
structure TokenBody where
  access_token : Jwt
  session_cookie : String
  user : PublicUser
deriving DecidableEq, Repr

/-- The pydantic `Field` constraints of `UserCreate` that FastAPI checks
against the request body before the register handler runs: password
length in 8 to 64, name length in 1 to 100. -/
def user_create_valid (password name : String) : Bool :=
  decide (8 ≤ password.length) && decide (password.length ≤ 64)
    && decide (1 ≤ name.length) && decide (name.length ≤ 100)

/-- server.py `register` together with the framework layer in front of
it: a body violating the `UserCreate` field constraints is rejected with
422 before the handler runs; then the handler checks
`validate_password` (400), duplicate email (400), creates the user,
mints the bearer token, creates a session, and answers 201 with the
session cookie set.  `new_id`, `salt` and `new_session_token` stand for
the uuid4, bcrypt salt and `secrets.token_urlsafe(32)` draws. -/
def register_endpoint (db : DB) (now : Nat) (key : SecretKey)
    (email password name : String)
    (new_id : String) (salt : Nat) (new_session_token : String) :
    ApiResponse TokenBody × DB :=
  if user_create_valid password name = false then
    (.error 422 "request validation failed", db)
  else if validate_password password = false then
    (.error 400 "Password must be between 8 and 64 characters", db)
  else
    match get_user_by_email db email with
    | some _ => (.error 400 "Email already registered", db)
    | none =>
      let d : NewUserData :=
        { id := new_id, email := email, name := name,
          password_hash := some (get_password_hash password salt),
          provider := "email", oauth_id := none, picture := none }
      let created := create_user db now d
      let access_token := create_access_token key (some created.1.id) now none
      let db2 := (create_session created.2 created.1.id new_session_token now).2
      (.success 201 { access_token := access_token,
                      session_cookie := new_session_token,
                      user := public_user created.1 }, db2)

/-- server.py `login`: find the user by email, read
`user["password_hash"]` unguarded (a document without that key raises
KeyError, which the blanket `except Exception` turns into a 500 "Login
failed" response — the `str(e)` of the KeyError names the missing key),
verify the password (an `UnknownHashError` from passlib is likewise
caught as a 500), reject inactive accounts, then mint token and session
and answer 200. -/
def login_endpoint (db : DB) (now : Nat) (key : SecretKey)
    (username password : String) (new_session_token : String) :
    ApiResponse TokenBody × DB :=
  match get_user_by_email db username with
  | none => (.error 401 "Incorrect email or password", db)
  | some user =>
    match user.password_hash with
    | none => (.error 500 "Login failed: password_hash", db)
    | some h =>
      match verify_password password h with
      | .error _ => (.error 500 "Login failed: hash could not be identified", db)
      | .ok false => (.error 401 "Incorrect email or password", db)
      | .ok true =>
        if user.is_active = false then
          (.error 401 "Account is disabled", db)
        else
          let access_token := create_access_token key (some user.id) now none
          let db1 := (create_session db user.id new_session_token now).2
          (.success 200 { access_token := access_token,
                          session_cookie := new_session_token,
                          user := public_user user }, db1)

/-- server.py `google_oauth_login`.  The `proxy` argument is the result
of `process_emergent_session(session_id)`: `none` when the external
proxy answered non-200 or the transport failed, `some` of the decoded
payload on 200.  On success the handler reuses an existing user with the
returned email or creates one with provider "google", and creates a
session under the proxy-supplied session token. -/
def google_oauth_login (db : DB) (now : Nat) (key : SecretKey)
    (session_id : Option String) (proxy : Option SessionData)
    (new_id : String) : ApiResponse TokenBody × DB :=
  match session_id with
  | none => (.error 400 "Session ID is required", db)
  | some _ =>
    match proxy with
    | none => (.error 400 "Invalid session ID", db)
    | some sd =>
      let found :=
        match get_user_by_email db sd.email with
        | some u => (u, db)
        | none =>
          create_user db now
            { id := new_id, email := sd.email, name := sd.name,
              password_hash := none, provider := "google",
              oauth_id := some sd.id, picture := sd.picture }
      let access_token := create_access_token key (some found.1.id) now none
      let db2 := (create_session found.2 found.1.id sd.session_token now).2
      (.success 200 { access_token := access_token,
                      session_cookie := sd.session_token,
                      user := public_user found.1 }, db2)

/-- server.py `get_current_user_profile` (GET /auth/me): the
`get_current_user` dependency then the public projection. -/
def me_endpoint (db : DB) (now : Nat) (key : SecretKey)
    (token : Option Jwt) (session_token : Option String) :
    ApiResponse PublicUser :=
  match get_current_user db now key token session_token with
  | none => .error 401 "Could not validate credentials"
  | some u => .success 200 (public_user u)

/-- server.py `logout`: guarded by the `get_current_user` dependency
(401 when it fails); on success deletes the cookie-presented session row
when a cookie is present and clears the cookie client-side. -/
def logout_endpoint (db : DB) (now : Nat) (key : SecretKey)
    (token : Option Jwt) (session_token : Option String) :
    ApiResponse String × DB :=
  match get_current_user db now key token session_token with
  | none => (.error 401 "Could not validate credentials", db)
  | some _ =>
    match session_token with
    | some st => (.success 200 "Successfully logged out", delete_session db st)
    | none => (.success 200 "Successfully logged out", db)

/-- The body of GET /auth/session/check: always HTTP 200, an
`authenticated` flag and the user projection when authenticated. -/
structure CheckSessionResponse where
  status : Nat
  authenticated : Bool
  user : Option PublicUser
deriving DecidableEq, Repr

/-- server.py `check_session`: cookie-only probe; missing cookie, dead
session or missing user each degrade to authenticated false, and the
blanket try/except means the handler is total and always answers 200. -/
def check_session (db : DB) (now : Nat) (session_token : Option String) :
    CheckSessionResponse :=
  match session_token with
  | none => { status := 200, authenticated := false, user := none }
  | some st =>
    match get_session db st now with
    | none => { status := 200, authenticated := false, user := none }
    | some session =>
      match get_user_by_id db session.user_id with
      | none => { status := 200, authenticated := false, user := none }
      | some u =>
        { status := 200, authenticated := true, user := some (public_user u) }

/-- Spec-side description of the session-cookie path of the identity
resolver: the cookie resolves exactly when it names a live session whose
user id maps to an existing user. -/
def cookie_resolves (db : DB) (now : Nat) (session_token : Option String) :
    Option UserDoc :=
  match session_token with
  | none => none
  | some st =>
    match get_session db st now with
    | none => none
    | some session => get_user_by_id db session.user_id

/-- The sequence of early-return ifs in `get_current_user` is the
first-success composition of the two credential paths. -/
lemma get_current_user_eq_paths (db : DB) (now : Nat) (key : SecretKey)
    (token : Option Jwt) (session_token : Option String) :
    get_current_user db now key token session_token =
      match cookie_resolves db now session_token with
      | some u => some u
      | none => bearer_resolves db now key token := by
  cases session_token with
  | none => rfl
  | some st =>
    cases h : get_session db st now with
    | none => simp [get_current_user, cookie_resolves, h]
    | some s =>
      cases h2 : get_user_by_id db s.user_id with
      | none => simp [get_current_user, cookie_resolves, h, h2]
      | some u => simp [get_current_user, cookie_resolves, h, h2]

/-- C1: the identity resolver tries the session cookie first and the
bearer token second, first success winning, and fails with the 401
credentials exception (`none`) when both fail; a user reached through a
live session is returned even when `is_active` is false. -/
theorem c1_identity_resolver_order (db : DB) (now : Nat) (key : SecretKey)
    (token : Option Jwt) (session_token : Option String) :
    (∀ u : UserDoc, cookie_resolves db now session_token = some u →
        get_current_user db now key token session_token = some u)
    ∧ (∀ u : UserDoc, cookie_resolves db now session_token = some u →
        u.is_active = false →
        get_current_user db now key token session_token = some u)
    ∧ (cookie_resolves db now session_token = none →
        ∀ u : UserDoc, bearer_resolves db now key token = some u →
          get_current_user db now key token session_token = some u)
    ∧ (cookie_resolves db now session_token = none →
        bearer_resolves db now key token = none →
        get_current_user db now key token session_token = none) := by
  refine ⟨fun u hu => ?_, fun u hu _ => ?_, fun hc u hb => ?_, fun hc hb => ?_⟩ <;>
    simp [get_current_user_eq_paths, *]

/-- Concrete database for exercising the identity resolver: one user
whose `is_active` flag is false, with one live session. -/
def c1_db : DB :=
  { users := [{ id := "u1", email := "a@x.com", name := "A",
                password_hash := none, provider := "email",
                oauth_id := none, picture := none,
                created_at := 0, is_active := false }],
    sessions := [{ user_id := "u1", session_token := "stok",
                   created_at := 0, expires_at := 100 }] }

/-- The single user of `c1_db`. -/
def c1_user : UserDoc :=
  { id := "u1", email := "a@x.com", name := "A",
    password_hash := none, provider := "email",
    oauth_id := none, picture := none,
    created_at := 0, is_active := false }

/-- Witness for C1: the inactive user is returned through the session
cookie, through the bearer token when no cookie resolves, and the
resolver fails when neither credential is present. -/
theorem c1_identity_resolver_order_witness :
    get_current_user c1_db 5 "k" none (some "stok") = some c1_user
    ∧ get_current_user c1_db 5 "k"
        (some (create_access_token "k" (some "u1") 0 none)) none = some c1_user
    ∧ get_current_user c1_db 5 "k" none none = none :=
  ⟨(c1_identity_resolver_order c1_db 5 "k" none (some "stok")).2.1 c1_user
      (by decide) (by decide),
   (c1_identity_resolver_order c1_db 5 "k"
      (some (create_access_token "k" (some "u1") 0 none)) none).2.2.1
      (by decide) c1_user (by decide),
   (c1_identity_resolver_order c1_db 5 "k" none none).2.2.2
      (by decide) (by decide)⟩

/-- C4 counterexample: `verify_password` on a hash string passlib does
not recognize raises `UnknownHashError` past its boundary instead of
returning false, because server.py delegates to `pwd_context.verify`
with no try/except of its own. -/
theorem c4_counterexample :
    verify_password "password1" (HashValue.unrecognized "zzz") =
      Except.error PasslibError.unknownHash := rfl

/-- C4 amended: `verify_password` returns false on any mismatch against
a recognized bcrypt hash and true on the matching plaintext, but on a
malformed or unrecognized hash value it raises `UnknownHashError`
rather than returning false. -/
theorem c4_verify_password_amended (plain pw raw : String) (salt : Nat) :
    (plain ≠ pw → verify_password plain (HashValue.bcrypt pw salt) = .ok false)
    ∧ verify_password pw (get_password_hash pw salt) = .ok true
    ∧ verify_password plain (HashValue.unrecognized raw) =
        .error PasslibError.unknownHash := by
  refine ⟨fun h => ?_, ?_, rfl⟩
  · simp [verify_password, pwd_context_verify, h]
  · simp [verify_password, get_password_hash, pwd_context_hash, pwd_context_verify]

/-- Witness for C4 amended: a concrete mismatch returns false. -/
theorem c4_verify_password_amended_witness :
    verify_password "wrongpass" (HashValue.bcrypt "password1" 0) = .ok false :=
  (c4_verify_password_amended "wrongpass" "password1" "x" 0).1 (by decide)

/-- C5: a second registration with an already registered email is
rejected with 400 and detail "Email already registered", whatever the
new password and name (any values passing the request-body schema), and
the database is left unchanged, so no second user row is inserted. -/
theorem c5_duplicate_email (db : DB) (now : Nat) (key : SecretKey)
    (email password name new_id new_session_token : String) (salt : Nat)
    (u0 : UserDoc) (hex : get_user_by_email db email = some u0)
    (hval : user_create_valid password name = true) :
    register_endpoint db now key email password name new_id salt new_session_token =
      (.error 400 "Email already registered", db) := by
  have hlen : 8 ≤ password.length ∧ password.length ≤ 64 := by
    unfold user_create_valid at hval
    simp only [Bool.and_eq_true, decide_eq_true_eq] at hval
    exact ⟨hval.1.1.1, hval.1.1.2⟩
  have hvp : validate_password password = true := by
    unfold validate_password
    have h : ¬ (password.length < 8 ∨ password.length > 64) := by omega
    simp [h]
  simp [register_endpoint, hval, hvp, hex]

/-- Witness for C5: re-registering the email of the user of `c1_db`
with a different password and name is rejected and inserts nothing. -/
theorem c5_duplicate_email_witness :
    register_endpoint c1_db 0 "k" "a@x.com" "newpassword" "B" "u2" 0 "st2" =
      (.error 400 "Email already registered", c1_db) :=
  c5_duplicate_email c1_db 0 "k" "a@x.com" "newpassword" "B" "u2" "st2" 0
    c1_user (by decide) (by decide)

/-- C6: validating a token issued for user id u recovers u as the sub
claim while now is at most issuance plus 7 days; once now exceeds that,
or under a different signing key, or on a malformed token, `verify_token`
returns the invalid sentinel `none` (the function is total, so nothing
escapes its boundary). -/
theorem c6_token_roundtrip (key : SecretKey) (u : String) (issued now : Nat) :
    (now ≤ issued + SEVEN_DAYS →
      verify_token key (create_access_token key (some u) issued none) now =
        some { sub := some u, exp := issued + SEVEN_DAYS })
    ∧ (issued + SEVEN_DAYS < now →
      verify_token key (create_access_token key (some u) issued none) now = none)
    ∧ (∀ key2 : SecretKey, key2 ≠ key →
      verify_token key2 (create_access_token key (some u) issued none) now = none)
    ∧ (∀ raw : String, verify_token key (.malformed raw) now = none) := by
  refine ⟨fun h => ?_, fun h => ?_, fun key2 hk => ?_, fun raw => rfl⟩
  · simp [verify_token, create_access_token, h]
  · have h2 : ¬ (now ≤ issued + SEVEN_DAYS) := by omega
    simp [verify_token, create_access_token, h2]
  · have h2 : (key == key2) = false := by
      simp only [beq_eq_false_iff_ne]
      exact fun h3 => hk h3.symm
    simp [verify_token, create_access_token, h2]

/-- Witness for C6: a token issued at time 0 validates at the 7-day
boundary, fails one second later, and fails under another key. -/
theorem c6_token_roundtrip_witness :
    verify_token "k" (create_access_token "k" (some "u1") 0 none) SEVEN_DAYS =
      some { sub := some "u1", exp := 0 + SEVEN_DAYS }
    ∧ verify_token "k" (create_access_token "k" (some "u1") 0 none)
        (SEVEN_DAYS + 1) = none
    ∧ verify_token "kk" (create_access_token "k" (some "u1") 0 none) 0 = none :=
  ⟨(c6_token_roundtrip "k" "u1" 0 SEVEN_DAYS).1 (by omega),
   (c6_token_roundtrip "k" "u1" 0 (SEVEN_DAYS + 1)).2.1 (by omega),
   (c6_token_roundtrip "k" "u1" 0 0).2.2.1 "kk" (by decide)⟩

/-- C7: when the external proxy does not recognize the session id (non
200 or transport failure, i.e. `process_emergent_session` yields none),
the OAuth bridge fails with 400 "Invalid session ID" and the database,
in particular the users collection, is left unchanged. -/
theorem c7_oauth_invalid_session (db : DB) (now : Nat) (key : SecretKey)
    (sid new_id : String) :
    google_oauth_login db now key (some sid) none new_id =
      (.error 400 "Invalid session ID", db) := rfl

/-- C8: the session-check probe answers authenticated false with HTTP
200 when no cookie is present, when the cookie does not resolve to a
live session, and when the session user does not exist; the handler is
a total function whose status is 200 on every input, so no failure ever
escapes as an error status. -/
theorem c8_session_check_degrades (db : DB) (now : Nat)
    (session_token : Option String) :
    check_session db now none = { status := 200, authenticated := false, user := none }
    ∧ (∀ st : String, get_session db st now = none →
        check_session db now (some st) =
          { status := 200, authenticated := false, user := none })
    ∧ (∀ st : String, ∀ s : SessionDoc, get_session db st now = some s →
        get_user_by_id db s.user_id = none →
        check_session db now (some st) =
          { status := 200, authenticated := false, user := none })
    ∧ (check_session db now session_token).status = 200 := by
  refine ⟨rfl, fun st h => ?_, fun st s h h2 => ?_, ?_⟩
  · simp [check_session, h]
  · simp [check_session, h, h2]
  · cases session_token with
    | none => rfl
    | some st =>
      cases h : get_session db st now with
      | none => simp [check_session, h]
      | some s =>
        cases h2 : get_user_by_id db s.user_id with
        | none => simp [check_session, h, h2]
        | some u => simp [check_session, h, h2]

/-- Witness for C8: concrete no-cookie and dead-cookie probes both
degrade to authenticated false with status 200. -/
theorem c8_session_check_degrades_witness :
    check_session c1_db 5 none =
      { status := 200, authenticated := false, user := none }
    ∧ check_session c1_db 5 (some "nope") =
      { status := 200, authenticated := false, user := none } :=
  ⟨(c8_session_check_degrades c1_db 5 none).1,
   (c8_session_check_degrades c1_db 5 (some "nope")).2.1 "nope" (by decide)⟩

/-- Concrete database for C10: one OAuth-provisioned user, whose
document has no password_hash field. -/
def c10_db : DB :=
  { users := [{ id := "g1", email := "g@x.com", name := "G",
                password_hash := none, provider := "google",
                oauth_id := some "oid", picture := none,
                created_at := 0, is_active := true }],
    sessions := [] }

/-- The single user of `c10_db`. -/
def c10_user : UserDoc :=
  { id := "g1", email := "g@x.com", name := "G",
    password_hash := none, provider := "google",
    oauth_id := some "oid", picture := none,
    created_at := 0, is_active := true }

/-- C10: logging in with the email of a user record that has no
password_hash field hits the unguarded `user["password_hash"]` access;
the KeyError is converted by the blanket handler into a 500 "Login
failed" response, not the generic 401 credentials error. -/
theorem c10_login_passwordless_500 (db : DB) (now : Nat) (key : SecretKey)
    (email password new_session_token : String) (u : UserDoc)
    (hu : get_user_by_email db email = some u)
    (hph : u.password_hash = none) :
    login_endpoint db now key email password new_session_token =
      (.error 500 "Login failed: password_hash", db)
    ∧ login_endpoint db now key email password new_session_token ≠
      (.error 401 "Incorrect email or password", db) := by
  have h : login_endpoint db now key email password new_session_token =
      (.error 500 "Login failed: password_hash", db) := by
    simp [login_endpoint, hu, hph]
  refine ⟨h, ?_⟩
  rw [h]
  simp [Prod.ext_iff]

/-- Witness for C10: the concrete OAuth user of `c10_db` triggers the
500 "Login failed" path on any login attempt. -/
theorem c10_login_passwordless_500_witness :
    login_endpoint c10_db 0 "k" "g@x.com" "whatever1" "st" =
      (.error 500 "Login failed: password_hash", c10_db) :=
  (c10_login_passwordless_500 c10_db 0 "k" "g@x.com" "whatever1" "st"
    c10_user (by decide) (by decide)).1

/-- When a token matches at most one session row, Mongo `delete_one`
removes every row with that token, i.e. agrees with a filter. -/
lemma delete_one_eq_filter (l : List SessionDoc) (tok : String)
    (h : l.countP (fun s => s.session_token == tok) ≤ 1) :
    delete_one_session l tok = l.filter (fun s => !(s.session_token == tok)) := by
  induction l with
  | nil => rfl
  | cons a l ih =>
    cases hb : (a.session_token == tok) with
    | true =>
      rw [List.countP_cons_of_pos _ l hb] at h
      have h0 : l.countP (fun s => s.session_token == tok) = 0 := by omega
      have hfil : l.filter (fun s => !(s.session_token == tok)) = l := by
        rw [List.filter_eq_self]
        intro x hx
        have hx2 := List.countP_eq_zero.mp h0 x hx
        simp only [Bool.not_eq_true] at hx2
        simp [hx2]
      simp [delete_one_session, hb, List.filter_cons, hfil]
    | false =>
      rw [List.countP_cons_of_neg _ l (by simp [hb])] at h
      simp [delete_one_session, hb, List.filter_cons, ih h]

/-- After filtering out every row with the token, `get_session` on that
token finds nothing, at any time. -/
lemma get_session_filter_none (users : List UserDoc) (sessions : List SessionDoc)
    (tok : String) (now : Nat) :
    get_session { users := users,
                  sessions := sessions.filter (fun s => !(s.session_token == tok)) }
      tok now = none := by
  unfold get_session
  rw [List.find?_eq_none]
  intro x hx
  have hx2 := (List.mem_filter.mp hx).2
  simp only [Bool.not_eq_true'] at hx2
  simp [hx2]

/-- Deleting a token that matches no session row leaves the list
unchanged. -/
lemma delete_one_session_no_match (l : List SessionDoc) (tok : String)
    (h : ∀ s ∈ l, (s.session_token == tok) = false) :
    delete_one_session l tok = l := by
  induction l with
  | nil => rfl
  | cons a l ih =>
    simp [delete_one_session, h a (by simp), ih (fun s hs => h s (by simp [hs]))]

/-- C2: for a user authenticated with a session cookie whose token
matches at most one session row, logout answers 200, leaves the users
collection untouched, removes exactly that session row, after which the
token no longer authenticates the session-check probe at any time,
while bearer-token authentication against the resulting database is
unchanged, so every previously issued bearer token still authenticates
/auth/me until its natural expiry. -/
theorem c2_logout_frame (db : DB) (now : Nat) (key : SecretKey)
    (token : Option Jwt) (st : String) (u : UserDoc)
    (hauth : get_current_user db now key token (some st) = some u)
    (huniq : db.sessions.countP (fun s => s.session_token == st) ≤ 1) :
    (logout_endpoint db now key token (some st)).1 =
        .success 200 "Successfully logged out"
    ∧ (logout_endpoint db now key token (some st)).2.users = db.users
    ∧ (logout_endpoint db now key token (some st)).2.sessions =
        db.sessions.filter (fun s => !(s.session_token == st))
    ∧ (∀ now2 : Nat,
        (check_session (logout_endpoint db now key token (some st)).2 now2
          (some st)).authenticated = false)
    ∧ (∀ (t : Jwt) (now2 : Nat),
        get_current_user (logout_endpoint db now key token (some st)).2 now2 key
          (some t) none =
        get_current_user db now2 key (some t) none) := by
  have hres : logout_endpoint db now key token (some st) =
      (.success 200 "Successfully logged out", delete_session db st) := by
    simp [logout_endpoint, hauth]
  have hdel : delete_session db st =
      { users := db.users,
        sessions := db.sessions.filter (fun s => !(s.session_token == st)) } := by
    unfold delete_session
    rw [delete_one_eq_filter db.sessions st huniq]
  refine ⟨by rw [hres], by rw [hres, hdel], by rw [hres, hdel],
    fun now2 => ?_, fun t now2 => ?_⟩
  · rw [hres, hdel]
    have hnone := get_session_filter_none db.users db.sessions st now2
    simp [check_session, hnone]
  · rw [hres, hdel]
    cases h1 : verify_token key t now2 with
    | none => simp [get_current_user, bearer_resolves, h1]
    | some p =>
      cases h2 : p.sub with
      | none => simp [get_current_user, bearer_resolves, h1, h2]
      | some uid => simp [get_current_user, bearer_resolves, h1, h2, get_user_by_id]

/-- Witness for C2: logging the session of `c1_db` out succeeds, keeps
the user row, and kills the cookie for the session-check probe while
the bearer path still resolves the user. -/
theorem c2_logout_frame_witness :
    (logout_endpoint c1_db 5 "k" none (some "stok")).1 =
        .success 200 "Successfully logged out"
    ∧ (logout_endpoint c1_db 5 "k" none (some "stok")).2.users = c1_db.users
    ∧ (check_session (logout_endpoint c1_db 5 "k" none (some "stok")).2 5
        (some "stok")).authenticated = false
    ∧ get_current_user (logout_endpoint c1_db 5 "k" none (some "stok")).2 5 "k"
        (some (create_access_token "k" (some "u1") 0 none)) none =
      get_current_user c1_db 5 "k"
        (some (create_access_token "k" (some "u1") 0 none)) none :=
  have h := c2_logout_frame c1_db 5 "k" none "stok" c1_user (by decide) (by decide)
  ⟨h.1, h.2.1, h.2.2.2.1 5,
   h.2.2.2.2 (create_access_token "k" (some "u1") 0 none) 5⟩

/-- The empty database. -/
def empty_db : DB := { users := [], sessions := [] }

/-- C3 counterexample: a registration whose password has length 7 is
rejected by the framework request-body validation with HTTP 422, not
with the claimed 400 — the pydantic `Field(min_length=8, max_length=64)`
constraint fires before the handler and its 400 branch can run. -/
theorem c3_counterexample :
    (register_endpoint empty_db 0 "k" "a@x.com" "1234567" "A" "u1" 0 "st").1 =
      .error 422 "request validation failed"
    ∧ (422 : Nat) ≠ 400 := by
  constructor
  · rfl
  · decide

/-- C3 amended: a password of length outside 8 to 64 (such as 7 or 65)
is rejected with HTTP 422 by request validation, never reaching the
handler; lengths exactly 8 and 64 pass both the field constraint and
`validate_password`, and with a valid name and fresh email the
registration answers 201. -/
theorem c3_password_length_amended (db : DB) (now : Nat) (key : SecretKey)
    (email password name new_id new_session_token : String) (salt : Nat) :
    (password.length < 8 ∨ password.length > 64 →
      register_endpoint db now key email password name new_id salt
          new_session_token = (.error 422 "request validation failed", db))
    ∧ (password.length = 8 ∨ password.length = 64 →
        validate_password password = true)
    ∧ (password.length = 8 ∨ password.length = 64 →
        1 ≤ name.length → name.length ≤ 100 →
        get_user_by_email db email = none →
        (register_endpoint db now key email password name new_id salt
            new_session_token).1 =
          .success 201
            { access_token := Jwt.signed { sub := some new_id,
                                           exp := now + SEVEN_DAYS } key,
              session_cookie := new_session_token,
              user := { id := new_id, email := email, name := name,
                        created_at := now, is_active := true,
                        provider := "email" } }) := by
  refine ⟨fun h => ?_, fun h => ?_, fun h hn1 hn2 hfresh => ?_⟩
  · have hv : user_create_valid password name = false := by
      unfold user_create_valid
      rcases h with h | h
      · have h8 : (decide (8 ≤ password.length)) = false := by
          simp
          omega
        simp [h8]
      · have h64 : (decide (password.length ≤ 64)) = false := by
          simp
          omega
        simp [h64]
    simp [register_endpoint, hv]
  · unfold validate_password
    have h2 : ¬ (password.length < 8 ∨ password.length > 64) := by
      rcases h with h | h <;> omega
    simp [h2]
  · have hv : user_create_valid password name = true := by
      unfold user_create_valid
      simp only [Bool.and_eq_true, decide_eq_true_eq]
      rcases h with h | h <;> exact ⟨⟨⟨by omega, by omega⟩, hn1⟩, hn2⟩
    have hvp : validate_password password = true := by
      unfold validate_password
      have h2 : ¬ (password.length < 8 ∨ password.length > 64) := by
        rcases h with h | h <;> omega
      simp [h2]
    simp [register_endpoint, hv, hvp, hfresh, create_user, create_session,
      create_access_token, public_user]

/-- Witness for C3 amended: a 65-character password is rejected with
422, and an 8-character password registers with 201 against the empty
database. -/
theorem c3_password_length_amended_witness :
    register_endpoint empty_db 0 "k" "a@x.com"
        "aaaaaaaaaaaaaaaaaaaaaaaaaaaaaaaaaaaaaaaaaaaaaaaaaaaaaaaaaaaaaaaaa" "A"
        "u1" 0 "st" = (.error 422 "request validation failed", empty_db)
    ∧ (register_endpoint empty_db 0 "k" "a@x.com" "12345678" "A" "u1" 0 "st").1 =
      .success 201
        { access_token := Jwt.signed { sub := some "u1",
                                       exp := 0 + SEVEN_DAYS } "k",
          session_cookie := "st",
          user := { id := "u1", email := "a@x.com", name := "A",
                    created_at := 0, is_active := true,
                    provider := "email" } } :=
  ⟨(c3_password_length_amended empty_db 0 "k" "a@x.com"
      "aaaaaaaaaaaaaaaaaaaaaaaaaaaaaaaaaaaaaaaaaaaaaaaaaaaaaaaaaaaaaaaaa" "A"
      "u1" "st" 0).1 (Or.inr (by decide)),
   (c3_password_length_amended empty_db 0 "k" "a@x.com" "12345678" "A"
      "u1" "st" 0).2.2 (Or.inl (by decide)) (by decide) (by decide) (by decide)⟩

/-- C9 counterexample: with the session row already deleted by the
first logout, a second logout presenting only the same session cookie
is rejected with 401 by the `get_current_user` dependency, so the
second call does error. -/
theorem c9_counterexample :
    (logout_endpoint c1_db 5 "k" none (some "stok")).1 =
        ApiResponse.success 200 "Successfully logged out"
    ∧ (logout_endpoint (logout_endpoint c1_db 5 "k" none (some "stok")).2 5 "k"
        none (some "stok")).1 =
        ApiResponse.error 401 "Could not validate credentials" := by
  constructor
  · rfl
  · rfl

/-- C9 amended: session revocation itself is idempotent — deleting a
token that matches no session row is a no-op and cannot error — and a
second logout presenting the already-deleted session cookie succeeds
with 200 provided the request still carries a valid credential (a
bearer token that resolves); presenting only the dead cookie, the
second call is rejected 401 by the authentication dependency. -/
theorem c9_logout_idempotence_amended (db : DB) (now : Nat) (key : SecretKey)
    (st : String) (t : Jwt) (u : UserDoc) :
    (∀ tok : String, (∀ s ∈ db.sessions, (s.session_token == tok) = false) →
        delete_session db tok = db)
    ∧ ((∀ s ∈ db.sessions, (s.session_token == st) = false) →
        bearer_resolves db now key (some t) = some u →
        logout_endpoint db now key (some t) (some st) =
          (.success 200 "Successfully logged out", db))
    ∧ ((∀ s ∈ db.sessions, (s.session_token == st) = false) →
        bearer_resolves db now key none = none →
        logout_endpoint db now key none (some st) =
          (.error 401 "Could not validate credentials", db)) := by
  have hdel : ∀ tok : String,
      (∀ s ∈ db.sessions, (s.session_token == tok) = false) →
      delete_session db tok = db := by
    intro tok hno
    unfold delete_session
    rw [delete_one_session_no_match db.sessions tok hno]
  have hsess : ∀ tok : String,
      (∀ s ∈ db.sessions, (s.session_token == tok) = false) →
      get_session db tok now = none := by
    intro tok hno
    unfold get_session
    rw [List.find?_eq_none]
    intro x hx
    simp [hno x hx]
  refine ⟨hdel, fun hno hb => ?_, fun hno hb => ?_⟩
  · have hgcu : get_current_user db now key (some t) (some st) = some u := by
      simp [get_current_user, hsess st hno, hb]
    simp [logout_endpoint, hgcu, hdel st hno]
  · have hgcu : get_current_user db now key none (some st) = none := by
      simp [get_current_user, hsess st hno, hb]
    simp [logout_endpoint, hgcu]

/-- Witness for C9 amended: against `c10_db` (no sessions at all) the
dead-token deletion is a no-op, a logout carrying a valid bearer token
and a dead cookie succeeds with 200 and changes nothing, and the
cookie-only call is rejected 401. -/
theorem c9_logout_idempotence_amended_witness :
    delete_session c10_db "gone" = c10_db
    ∧ logout_endpoint c10_db 5 "k"
        (some (create_access_token "k" (some "g1") 0 none)) (some "gone") =
      (.success 200 "Successfully logged out", c10_db)
    ∧ logout_endpoint c10_db 5 "k" none (some "gone") =
      (.error 401 "Could not validate credentials", c10_db) :=
  have h := c9_logout_idempotence_amended c10_db 5 "k" "gone"
    (create_access_token "k" (some "g1") 0 none) c10_user
  ⟨h.1 "gone" (by decide), h.2.1 (by decide) (by decide),
   h.2.2 (by decide) (by decide)⟩

end NinjaAuth
